import Mathlib

/-!
Verification development for the food-ordering backend.

The definitions below are a shallow embedding of the Python/Django source:
`operations/models.py` (RestaurantSetting), `orders/models.py` (Order,
OrderItem) and `orders/api/serializers.py` / `orders/api/views.py`
(order creation, status updates, cancellation).

Modelling conventions:
* Decimal values are embedded as `ℚ`; `Decimal.quantize(0.01, ROUND_HALF_UP)`
  is `quantize2`, rounding half away from zero to 2 decimal digits (Python's
  `ROUND_HALF_UP` rounds half away from zero).
* Times of day (`datetime.time`) are minutes after midnight (`ℕ`, < 1440 for
  real inputs); instants (`datetime.datetime`) are minutes on a linear clock
  (`ℤ`).
* Raising `ValidationError` / `serializers.ValidationError`, and database
  `IntegrityError`s, are `Except` errors; Django's autocommit persists each
  `objects.create` immediately, which `create_order` mirrors by returning the
  rows persisted so far together with the outcome (there is no
  `transaction.atomic` anywhere in the creation path of the source).
-/

/-- Status of an order, `Order.Status` in `orders/models.py`. -/
inductive Status where
  | pending
  | ready
  | complete
  | canceled
deriving DecidableEq

/-- Error kinds raised by the embedded operations (spec §7 taxonomy):
`ValidationError`s, serializer validation errors, and database integrity
errors. -/
inductive OrderError where
  | invalidTransition (currentStatus requested : Status)
  | constraintViolation (name : String)
  | admissionDenied (msg : String)
  | itemUnavailable (item_id : ℕ)
  | invalidQuantity
  | invalidPrice
  | priceMismatch (currentPrice supplied : ℚ)
  | emptyItems
  | negativeGratuity
  | emptyReason
  | duplicateItem (item_id : ℕ)
deriving DecidableEq

deriving instance DecidableEq for Except

/-- Rounding rule of Python's `ROUND_HALF_UP` on `Decimal`: round to the
nearest integer, ties going away from zero. -/
def round_half_up (q : ℚ) : ℤ :=
  if 0 ≤ q then ⌊q + 1/2⌋ else -⌊-q + 1/2⌋

/-- The operation `Decimal.quantize(Decimal("0.01"), rounding=ROUND_HALF_UP)`
used throughout `orders/models.py`. -/
def quantize2 (q : ℚ) : ℚ :=
  (round_half_up (q * 100) : ℚ) / 100

/-- Schedule singleton, `RestaurantSetting` in `operations/models.py`.
Times of day are minutes after midnight. -/
structure RestaurantSetting where
  is_accepting_orders : Bool
  min_ready_minutes : ℕ
  max_ready_minutes : ℕ
  default_ready_minutes : ℕ
  open_time : ℕ
  close_time : ℕ
deriving DecidableEq

/-- Last-call computation, `RestaurantSetting.calculate_last_call`: the
source combines `close_time` with today's date, subtracts
`default_ready_minutes` and takes `.time()`, i.e. it computes
`close_time - default_ready_minutes` modulo one day (1440 minutes), wrapping
into the previous day when the subtraction crosses midnight. -/
def RestaurantSetting.calculate_last_call (rs : RestaurantSetting) : ℕ :=
  (((rs.close_time : ℤ) - (rs.default_ready_minutes : ℤ)) % 1440).toNat

/-- Property `RestaurantSetting.last_call`. -/
def RestaurantSetting.last_call (rs : RestaurantSetting) : ℕ :=
  rs.calculate_last_call

/-- Schedule validation, `RestaurantSetting.clean`: the four invariant
checks, in source order, each with its own error message. -/
def RestaurantSetting.clean (rs : RestaurantSetting) : Except String Unit :=
  if rs.open_time ≥ rs.close_time then
    .error "Open time must be before close time (no midnight)"
  else if rs.min_ready_minutes > rs.max_ready_minutes then
    .error "Min ready time must be less than the max ready time."
  else if ¬ (rs.min_ready_minutes ≤ rs.default_ready_minutes ∧
             rs.default_ready_minutes ≤ rs.max_ready_minutes) then
    .error "Default ready minutes must be in the min and max range."
  else if rs.calculate_last_call < rs.open_time then
    .error "Last call time would be before opening time."
  else
    .ok ()

/-- Schedule write, `RestaurantSetting.save`: runs `full_clean` (hence
`clean`) and persists the candidate only when validation passes; a rejected
write raises and leaves the stored record unchanged.  Returns the stored
record afterwards, and whether the write succeeded. -/
def RestaurantSetting.save (stored : Option RestaurantSetting)
    (candidate : RestaurantSetting) : Option RestaurantSetting × Bool :=
  match candidate.clean with
  | .error _ => (stored, false)
  | .ok _ => (some candidate, true)

/-- Persisted order row, the fields of `Order` in `orders/models.py` used by
the lifecycle operations.  `created_at` is an instant in minutes. -/
structure Order where
  status : Status
  created_at : ℤ
  completed_at : Option ℤ
  canceled_at : Option ℤ
  cancel_reason : Option String
deriving DecidableEq

/-- Admission gate, `Order.clean` in `orders/models.py` restricted to the
creation case (`self._state.adding`): `creation_time` is the time-of-day of
`created_at` in the restaurant's timezone. -/
def Order.clean (rs : RestaurantSetting) (creation_time : ℕ) : Except OrderError Unit :=
  if rs.is_accepting_orders = false then
    .error (.admissionDenied "Restaurant is not accepting orders.")
  else if creation_time < rs.open_time ∨ creation_time > rs.last_call ∨
          creation_time ≥ rs.close_time then
    .error (.admissionDenied "Only accept orders created within available business hours")
  else
    .ok ()

/-- Timestamp reconciliation in `Order.save` (the `if self.pk:` block):
`old` is the previously persisted row re-read from the database, `o` the
in-memory row being saved.  A `datetime` is always truthy in Python, so
`not self.completed_at` is `completed_at = none`. -/
def Order.apply_save_diff (now : ℤ) (old o : Order) : Order :=
  let o1 :=
    if old.status ≠ Status.complete ∧ o.status = Status.complete ∧
        o.completed_at = none then
      { o with completed_at := some now,
               canceled_at := if o.canceled_at.isSome then none else o.canceled_at }
    else o
  if old.status ≠ Status.canceled ∧ o1.status = Status.canceled ∧
      o1.canceled_at = none then
    { o1 with canceled_at := some now,
              completed_at := if o1.completed_at.isSome then none else o1.completed_at }
  else
    let o2 :=
      if o1.status = Status.complete ∧ o1.completed_at = none then
        { o1 with completed_at := some now }
      else o1
    if o2.status = Status.canceled ∧ o2.canceled_at = none then
      { o2 with canceled_at := some now }
    else o2

/-- Validation run by `self.full_clean()` on an order update: the CHECK
constraints of `Order.Meta` (the `non_negative_decimals` constraint concerns
the money fields, which the lifecycle operations never change, and the
creation-time `clean` only runs when `self._state.adding`).  The
`getD created_at` trick makes the check vacuous when the timestamp is
absent, exactly as `Q(x__isnull=True) | Q(x__gte=F("created_at"))`. -/
def Order.full_clean (o : Order) : Except OrderError Unit :=
  if o.completed_at.isSome ∧ o.canceled_at.isSome then
    .error (.constraintViolation "order_not_both_completed_and_canceled")
  else if o.completed_at.getD o.created_at < o.created_at then
    .error (.constraintViolation "order_completed_after_created")
  else if o.canceled_at.getD o.created_at < o.created_at then
    .error (.constraintViolation "order_canceled_after_create")
  else
    .ok ()

/-- Update-path `Order.save`: reconcile timestamps against the previously
persisted row `old`, run `full_clean`, and persist (return) the row only if
validation passes. -/
def Order.save (now : ℤ) (old o : Order) : Except OrderError Order :=
  match (Order.apply_save_diff now old o).full_clean with
  | .error e => .error e
  | .ok _ => .ok (Order.apply_save_diff now old o)

/-- Property `Order.promised_ready_time`: creation instant plus the
current schedule's `default_ready_minutes` (read at call time). -/
def Order.promised_ready_time (rs : RestaurantSetting) (o : Order) : ℤ :=
  o.created_at + (rs.default_ready_minutes : ℤ)

/-- Transition method `Order.make_order_ready`: promote to READY only once
the promised ready time has passed; otherwise do nothing (no error, no
save). -/
def Order.make_order_ready (now : ℤ) (rs : RestaurantSetting) (o : Order) :
    Except OrderError Order :=
  if o.promised_ready_time rs ≤ now then
    Order.save now o { o with status := Status.ready }
  else
    .ok o

/-- Transition method `Order.complete_order`. -/
def Order.complete_order (now : ℤ) (o : Order) : Except OrderError Order :=
  Order.save now o { o with completed_at := some now, status := Status.complete }

/-- Transition method `Order.cancel_order`. -/
def Order.cancel_order (now : ℤ) (reason : String) (o : Order) :
    Except OrderError Order :=
  Order.save now o
    { o with canceled_at := some now, status := Status.canceled,
             cancel_reason := some reason }

/-- Transition dictionary `valid_transactions` of
`OrderStatusUpdateSerializer.validate_status`. -/
def valid_transactions (current : Status) : List Status :=
  match current with
  | .pending => [Status.ready, Status.canceled]
  | .ready => [Status.complete, Status.canceled]
  | .complete => []
  | .canceled => []

/-- Validator `OrderStatusUpdateSerializer.validate_status`: reject any
requested status not listed for the current one. -/
def validate_status (current value : Status) : Except OrderError Status :=
  if value ∈ valid_transactions current then
    .ok value
  else
    .error (.invalidTransition current value)

/-- Staff status update: `StaffOrderViewSet.update_status` feeding
`OrderStatusUpdateSerializer` (validation, then `update`).  `cancel_reason`
comes from `request.data.get("cancel_reason", "Canceled by staff")`, i.e. an
absent key falls back to the default while a supplied value (even the empty
string) is used as given. -/
def update_status (now : ℤ) (rs : RestaurantSetting) (o : Order)
    (value : Status) (cancel_reason : Option String) : Except OrderError Order :=
  match validate_status o.status value with
  | .error e => .error e
  | .ok new_status =>
    if new_status = Status.ready then
      Order.make_order_ready now rs o
    else if new_status = Status.complete then
      Order.complete_order now o
    else if new_status = Status.canceled then
      Order.cancel_order now (cancel_reason.getD "Canceled by staff") o
    else
      .ok o

/-- Python's `str.strip()`: drop whitespace from both ends. -/
def str_strip (s : String) : String :=
  ⟨((s.data.dropWhile Char.isWhitespace).reverse.dropWhile Char.isWhitespace).reverse⟩

/-- Customer cancellation: `OrderCanceledByCustomerSerializer`.  The DRF
`CharField` (with default whitespace trimming and `allow_blank=False`)
together with `validate_cancel_reason` rejects exactly the reasons that are
blank after stripping, and stores the stripped reason; `save` then refuses
orders that are not PENDING or READY. -/
def customer_cancel (now : ℤ) (o : Order) (cancel_reason : String) :
    Except OrderError Order :=
  if str_strip cancel_reason = "" then
    .error .emptyReason
  else if ¬ (o.status = Status.pending ∨ o.status = Status.ready) then
    .error (.invalidTransition o.status Status.canceled)
  else
    Order.cancel_order now (str_strip cancel_reason) o

/-- Money fields computed by `Order.calculate_prices`. -/
structure Prices where
  subtotal : ℚ
  tax_amount : ℚ
  gratuity : ℚ
  total : ℚ
deriving DecidableEq

/-- Pricing engine, `Order.calculate_prices`: sum the stored per-line
`item_total`s (0 when there are none), quantize, tax, quantize the supplied
gratuity, and quantize the final sum. -/
def calculate_prices (item_totals : List ℚ) (tax_rate gratuity : ℚ) : Prices :=
  let subtotal := quantize2 item_totals.sum
  let tax_amount := quantize2 (subtotal * tax_rate)
  let gratuity2 := quantize2 gratuity
  let total := quantize2 (subtotal + tax_amount + gratuity2)
  ⟨subtotal, tax_amount, gratuity2, total⟩

/-- One line item of a `createOrder` request, together with the catalog
facts (`item_price`, `is_available`) of the referenced `MenuItem` that the
serializer consults at validation time. -/
structure ItemReq where
  item_id : ℕ
  item_price : ℚ
  is_available : Bool
  quantity : ℤ
  unit_price : ℚ
  note : String
deriving DecidableEq

/-- Validator `OrderItemWriteSerializer.validate_item`. -/
def validate_item (r : ItemReq) : Except OrderError Unit :=
  if r.is_available = false then .error (.itemUnavailable r.item_id) else .ok ()

/-- Validator `OrderItemWriteSerializer.validate_quantity`. -/
def validate_quantity (r : ItemReq) : Except OrderError Unit :=
  if r.quantity ≤ 0 then .error .invalidQuantity else .ok ()

/-- Validator `OrderItemWriteSerializer.validate_unit_price`. -/
def validate_unit_price (r : ItemReq) : Except OrderError Unit :=
  if r.unit_price ≤ 0 then .error .invalidPrice else .ok ()

/-- Cross-field validator `OrderItemWriteSerializer.validate`: the
stale-price guard.  It only runs after the field validators have passed, so
`menu_item and unit_price` are present (and `unit_price` nonzero). -/
def validate_price_match (r : ItemReq) : Except OrderError Unit :=
  if r.unit_price ≠ r.item_price then
    .error (.priceMismatch r.item_price r.unit_price)
  else
    .ok ()

/-- Full DRF validation of one line item: field validators in field order,
then the cross-field `validate`. -/
def run_item_validation (r : ItemReq) : Except OrderError Unit :=
  match validate_item r with
  | .error e => .error e
  | .ok _ =>
    match validate_quantity r with
    | .error e => .error e
    | .ok _ =>
      match validate_unit_price r with
      | .error e => .error e
      | .ok _ => validate_price_match r

/-- Validation of the `items` list (each element through
`OrderItemWriteSerializer`), reporting the first failure. -/
def validate_items : List ItemReq → Except OrderError Unit
  | [] => .ok ()
  | r :: rest =>
    match run_item_validation r with
    | .error e => .error e
    | .ok _ => validate_items rest

/-- Persisted `OrderItem` row. -/
structure OrderItemRow where
  item_id : ℕ
  quantity : ℤ
  note : String
  unit_price : ℚ
  item_total : ℚ
deriving DecidableEq

/-- Row built by `OrderItem.objects.create` + `OrderItem.save`, which
recomputes `item_total = (unit_price * quantity).quantize(0.01, HALF_UP)`. -/
def order_item_row (r : ItemReq) : OrderItemRow :=
  ⟨r.item_id, r.quantity, r.note, r.unit_price,
   quantize2 (r.unit_price * (r.quantity : ℚ))⟩

/-- Line-item insertion loop of `OrderCreateSerializer.create`: each
`OrderItem.objects.create` commits immediately (autocommit); a second row
for the same `(order, item)` pair violates the `unique_together` constraint
and raises, leaving the rows inserted so far persisted. -/
def insert_items (inserted : List OrderItemRow) :
    List ItemReq → List OrderItemRow × Option OrderError
  | [] => (inserted, none)
  | r :: rest =>
    if r.item_id ∈ inserted.map OrderItemRow.item_id then
      (inserted, some (.duplicateItem r.item_id))
    else
      insert_items (inserted ++ [order_item_row r]) rest

/-- Shell `Order` row persisted by `Order.objects.create` (money fields at
their model defaults until `calculate_prices` runs). -/
structure OrderRow where
  status : Status
  subtotal : ℚ
  tax_rate : ℚ
  tax_amount : ℚ
  gratuity : ℚ
  total : ℚ
deriving DecidableEq

/-- Outcome of a `createOrder` request: the persisted order shell (if any),
the persisted line-item rows, and the error if the request failed.  With no
transaction around `OrderCreateSerializer.create`, rows persisted before a
failure remain persisted. -/
structure CreateResult where
  order : Option OrderRow
  rows : List OrderItemRow
  err : Option OrderError
deriving DecidableEq

/-- Order creation: `CustomerOrderViewSet.create` →
`OrderCreateSerializer.is_valid` (items list non-empty, every item valid,
gratuity non-negative) → `OrderCreateSerializer.create` (insert order shell,
insert line items one by one, compute and persist prices).  `creation_time`
is the time-of-day at which the order is created, checked by the admission
gate inside `Order.objects.create` via `full_clean`. -/
def create_order (rs : RestaurantSetting) (creation_time : ℕ)
    (items : List ItemReq) (gratuity : ℚ) : CreateResult :=
  if items = [] then
    ⟨none, [], some .emptyItems⟩
  else
    match validate_items items with
    | .error e => ⟨none, [], some e⟩
    | .ok _ =>
      if gratuity < 0 then
        ⟨none, [], some .negativeGratuity⟩
      else
        match Order.clean rs creation_time with
        | .error e => ⟨none, [], some e⟩
        | .ok _ =>
          let shell : OrderRow := ⟨Status.pending, 0, 7/100, 0, gratuity, 0⟩
          match insert_items [] items with
          | (rows, some e) => ⟨some shell, rows, some e⟩
          | (rows, none) =>
            let pr := calculate_prices (rows.map OrderItemRow.item_total)
                        shell.tax_rate shell.gratuity
            ⟨some { shell with subtotal := pr.subtotal,
                               tax_amount := pr.tax_amount,
                               gratuity := pr.gratuity,
                               total := pr.total },
             rows, none⟩

/-- Transition table exactly as §4.4 of the spec states it. -/
def spec_transition_allowed (current requested : Status) : Bool :=
  match current, requested with
  | .pending, .ready => true
  | .pending, .canceled => true
  | .ready, .complete => true
  | .ready, .canceled => true
  | _, _ => false

/-- Whether an operation outcome is a rejection of kind `InvalidTransition`. -/
def is_invalid_transition_err (r : Except OrderError Order) : Bool :=
  match r with
  | .error (.invalidTransition _ _) => true
  | _ => false

/-- Scenario schedule of spec §8: open 11:30, close 21:30, default ready
20 minutes. -/
def rsA : RestaurantSetting :=
  ⟨true, 10, 75, 20, 690, 1290⟩

/-- A freshly created pending order (creation instant 0, no timestamps). -/
def orderP : Order :=
  ⟨Status.pending, 0, none, none, none⟩

/-- Scenario line item: catalog price 10.00, quantity 2, matching supplied
price. -/
def itemA : ItemReq :=
  ⟨1, 10, true, 2, 10, ""⟩

/-- Scenario line item of spec §8 Scenario B: catalog price 5.50,
quantity 1. -/
def itemB5 : ItemReq :=
  ⟨2, 11/2, true, 1, 11/2, ""⟩

/-- Line item with an integer catalog price 6.00, quantity 1. -/
def itemB : ItemReq :=
  ⟨2, 6, true, 1, 6, ""⟩

/-- Line item whose supplied unit price 10.00 disagrees with the catalog
price 11.00 (spec §8 Scenario E). -/
def itemM : ItemReq :=
  ⟨3, 11, true, 1, 10, ""⟩

/-- Candidate schedule with `close_time - default_ready_minutes` negative:
open 00:10, close 00:30, default ready 40 minutes. -/
def rsBadLastCall : RestaurantSetting :=
  ⟨true, 10, 75, 40, 10, 30⟩

lemma round_half_up_intCast (z : ℤ) : round_half_up (z : ℚ) = z := by
  have h2 : ⌊(1/2 : ℚ)⌋ = 0 := by norm_num
  unfold round_half_up
  split_ifs with h
  · rw [Int.floor_int_add, h2, add_zero]
  · have hz : -(z : ℚ) = ((-z : ℤ) : ℚ) := by push_cast; ring
    rw [hz, Int.floor_int_add, h2, add_zero, neg_neg]

lemma quantize2_intCast_div (z : ℤ) : quantize2 ((z : ℚ) / 100) = (z : ℚ) / 100 := by
  unfold quantize2
  have h100 : ((z : ℚ) / 100) * 100 = (z : ℚ) := by field_simp
  rw [h100, round_half_up_intCast]

lemma quantize2_add_three (a b c : ℚ) :
    quantize2 (quantize2 a + quantize2 b + quantize2 c) =
      quantize2 a + quantize2 b + quantize2 c := by
  have ha : quantize2 a = ((round_half_up (a * 100) : ℤ) : ℚ) / 100 := rfl
  have hb : quantize2 b = ((round_half_up (b * 100) : ℤ) : ℚ) / 100 := rfl
  have hc : quantize2 c = ((round_half_up (c * 100) : ℤ) : ℚ) / 100 := rfl
  rw [ha, hb, hc]
  have hsum :
      ((round_half_up (a * 100) : ℤ) : ℚ) / 100 +
        ((round_half_up (b * 100) : ℤ) : ℚ) / 100 +
        ((round_half_up (c * 100) : ℤ) : ℚ) / 100 =
      ((round_half_up (a * 100) + round_half_up (b * 100) +
          round_half_up (c * 100) : ℤ) : ℚ) / 100 := by
    push_cast
    ring
  rw [hsum, quantize2_intCast_div]

lemma calculate_prices_total (ts : List ℚ) (tr g : ℚ) :
    (calculate_prices ts tr g).total =
      (calculate_prices ts tr g).subtotal + (calculate_prices ts tr g).tax_amount +
        (calculate_prices ts tr g).gratuity :=
  quantize2_add_three ts.sum (quantize2 ts.sum * tr) g

/-- C2: the pricing engine computes `subtotal = round(Σ itemTotal)`,
`taxAmount = round(subtotal × taxRate)`, `gratuity = round(suppliedGratuity)`
and `total = subtotal + taxAmount + gratuity` exactly (the final quantize in
the source is the identity because each addend is already a whole number of
cents), where each `itemTotal = round(unitPrice × quantity)` and every round
is half-away-from-zero to 2 digits; Scenario B: items `{10.00 × 2}` and
`{5.50 × 1}` with tax rate 0.07 and gratuity 3.00 give subtotal 25.50, tax
1.79 and total 30.29. -/
theorem c2_pricing_engine :
    ∀ (items : List ItemReq) (tax_rate gratuity : ℚ),
      ((calculate_prices ((items.map order_item_row).map OrderItemRow.item_total)
          tax_rate gratuity).subtotal =
        quantize2 ((items.map order_item_row).map OrderItemRow.item_total).sum)
      ∧ ((calculate_prices ((items.map order_item_row).map OrderItemRow.item_total)
          tax_rate gratuity).tax_amount =
        quantize2 ((calculate_prices ((items.map order_item_row).map OrderItemRow.item_total)
          tax_rate gratuity).subtotal * tax_rate))
      ∧ ((calculate_prices ((items.map order_item_row).map OrderItemRow.item_total)
          tax_rate gratuity).gratuity = quantize2 gratuity)
      ∧ ((calculate_prices ((items.map order_item_row).map OrderItemRow.item_total)
          tax_rate gratuity).total =
        (calculate_prices ((items.map order_item_row).map OrderItemRow.item_total)
          tax_rate gratuity).subtotal +
        (calculate_prices ((items.map order_item_row).map OrderItemRow.item_total)
          tax_rate gratuity).tax_amount +
        (calculate_prices ((items.map order_item_row).map OrderItemRow.item_total)
          tax_rate gratuity).gratuity)
      ∧ (calculate_prices (([itemA, itemB5].map order_item_row).map OrderItemRow.item_total)
          (7/100) 3 = ⟨51/2, 179/100, 3, 3029/100⟩) := by
  intro items tax_rate gratuity
  refine ⟨rfl, rfl, rfl, calculate_prices_total _ _ _, ?_⟩
  norm_num [itemA, itemB5, order_item_row, calculate_prices, quantize2,
    round_half_up, Prices.mk.injEq]

lemma is_invalid_transition_err_save (now : ℤ) (old o : Order) :
    is_invalid_transition_err (Order.save now old o) = false := by
  unfold Order.save
  cases h : (Order.apply_save_diff now old o).full_clean with
  | ok u => rfl
  | error e =>
    unfold Order.full_clean at h
    split_ifs at h <;> injection h with he <;> subst he <;> rfl

lemma is_invalid_transition_err_ready (now : ℤ) (rs : RestaurantSetting) (o : Order) :
    is_invalid_transition_err (Order.make_order_ready now rs o) = false := by
  unfold Order.make_order_ready
  split_ifs with h
  · exact is_invalid_transition_err_save now o _
  · rfl

/-- C1: the status-update operation rejects a requested change as
`InvalidTransition` exactly when the (current, requested) pair is not in the
table PENDING→{READY, CANCELED}, READY→{COMPLETE, CANCELED}; in particular
COMPLETE and CANCELED reject every request (and a rejected request returns
an error, so no updated order is produced and the stored state is
unchanged). -/
theorem c1_transition_table_exact :
    ∀ (now : ℤ) (rs : RestaurantSetting) (o : Order) (value : Status)
      (cancel_reason : Option String),
      is_invalid_transition_err (update_status now rs o value cancel_reason) =
        !(spec_transition_allowed o.status value) := by
  intro now rs o value cancel_reason
  obtain ⟨st, ca, co, cx, cr⟩ := o
  cases st <;> cases value <;>
    first
      | rfl
      | exact is_invalid_transition_err_ready now rs _
      | exact is_invalid_transition_err_save now _ _

/-- C3: admission accepts exactly when the restaurant is accepting orders
and the creation time-of-day satisfies `open_time ≤ t`, `t ≤ last_call` and
`t < close_time`; Scenario A: with schedule open 11:30, close 21:30, default
ready 20 (last call 21:10), creation at 21:05 is accepted and at 21:15 is
rejected with `AdmissionDenied`; whenever the gate rejects, `create_order`
fails and persists no order shell and no line items. -/
theorem c3_admission_gate :
    (∀ (rs : RestaurantSetting) (t : ℕ),
        Order.clean rs t = .ok () ↔
          (rs.is_accepting_orders = true ∧ rs.open_time ≤ t ∧
           t ≤ rs.last_call ∧ t < rs.close_time))
    ∧ (rsA.last_call = 1270 ∧ Order.clean rsA 1265 = .ok () ∧
        Order.clean rsA 1275 =
          .error (.admissionDenied
            "Only accept orders created within available business hours"))
    ∧ (∀ (rs : RestaurantSetting) (t : ℕ) (items : List ItemReq) (g : ℚ)
          (e : OrderError),
        Order.clean rs t = .error e →
          (create_order rs t items g).order = none ∧
          (create_order rs t items g).rows = [] ∧
          (create_order rs t items g).err.isSome = true) := by
  refine ⟨?_, ⟨by decide, by decide, by decide⟩, ?_⟩
  · intro rs t
    unfold Order.clean
    split_ifs with h1 h2
    · constructor
      · intro h
        exact h.elim
      · rintro ⟨ha, -⟩
        rw [ha] at h1
        exact Bool.noConfusion h1
    · constructor
      · intro h
        exact h.elim
      · rintro ⟨-, ho, hl, hc⟩
        rcases h2 with h2 | h2 | h2 <;> omega
    · constructor
      · intro _
        push_neg at h2
        refine ⟨?_, h2.1, h2.2.1, h2.2.2⟩
        cases hb : rs.is_accepting_orders with
        | true => rfl
        | false => exact absurd hb h1
      · intro _
        rfl
  · intro rs t items g e he
    by_cases hni : items = []
    · subst hni
      exact ⟨rfl, rfl, rfl⟩
    · cases hv : validate_items items with
      | error e2 =>
        refine ⟨?_, ?_, ?_⟩ <;> simp [create_order, hni, hv]
      | ok u =>
        cases u
        by_cases hg : g < 0
        · refine ⟨?_, ?_, ?_⟩ <;> simp [create_order, hni, hv, hg]
        · refine ⟨?_, ?_, ?_⟩ <;> simp [create_order, hni, hv, hg, he]

/-- C5 (amended): a candidate schedule write succeeds if and only if
`open_time < close_time`, `min_ready ≤ max_ready`,
`min_ready ≤ default_ready ≤ max_ready`, and
`last_call = (close_time − default_ready_minutes) mod 24h ≥ open_time`
(the source computes last call on a time-of-day clock, wrapping across
midnight); a rejected write raises `ScheduleError` and leaves the stored
schedule unchanged, a successful one stores the candidate verbatim. -/
theorem c5_amended_schedule_write :
    ∀ (stored : Option RestaurantSetting) (cand : RestaurantSetting),
      (((RestaurantSetting.save stored cand).2 = true) ↔
        (cand.open_time < cand.close_time ∧
         cand.min_ready_minutes ≤ cand.max_ready_minutes ∧
         cand.min_ready_minutes ≤ cand.default_ready_minutes ∧
         cand.default_ready_minutes ≤ cand.max_ready_minutes ∧
         cand.open_time ≤ cand.last_call))
      ∧ ((RestaurantSetting.save stored cand).2 = false →
          (RestaurantSetting.save stored cand).1 = stored)
      ∧ ((RestaurantSetting.save stored cand).2 = true →
          (RestaurantSetting.save stored cand).1 = some cand) := by
  intro stored cand
  unfold RestaurantSetting.save RestaurantSetting.clean RestaurantSetting.last_call
  split_ifs with h1 h2 h3 h4 <;>
    refine ⟨?_, ?_, ?_⟩ <;> simp_all

/-- C5 counterexample: the candidate schedule open 00:10, close 00:30,
default ready 40 minutes is accepted by the write path even though
`close_time − default_ready_minutes < open_time` on a plain (non-wrapping)
reading, because the source's last call wraps past midnight to 23:50. -/
theorem c5_schedule_write_counterexample :
    (RestaurantSetting.save none rsBadLastCall).2 = true ∧
    ¬ ((rsBadLastCall.close_time : ℤ) - (rsBadLastCall.default_ready_minutes : ℤ) ≥
        (rsBadLastCall.open_time : ℤ)) :=
  ⟨by decide, by decide⟩

/-- Witness for C5 (amended): the default schedule passes all four checks
and is stored. -/
theorem c5_witness :
    (RestaurantSetting.save none rsA).2 = true ∧
    (RestaurantSetting.save none rsA).1 = some rsA :=
  have h := (c5_amended_schedule_write none rsA).1.mpr (by decide)
  ⟨h, (c5_amended_schedule_write none rsA).2.2 h⟩

/-- C9: after every successful persisted update, `completed_at` and
`canceled_at` are never both present: the save path clears the opposite
timestamp in its reconciliation branches and `full_clean` enforces the
`order_not_both_completed_and_canceled` constraint before anything is
persisted. -/
theorem c9_completed_canceled_exclusive :
    ∀ (now : ℤ) (old o o2 : Order), Order.save now old o = .ok o2 →
      ¬ (o2.completed_at.isSome = true ∧ o2.canceled_at.isSome = true) := by
  intro now old o o2 h hboth
  unfold Order.save at h
  cases hc : (Order.apply_save_diff now old o).full_clean with
  | error e =>
    rw [hc] at h
    exact Except.noConfusion h
  | ok u =>
    rw [hc] at h
    injection h with h2
    subst h2
    unfold Order.full_clean at hc
    split_ifs at hc

/-- A completed order row used to witness C9. -/
def orderDoneC : Order :=
  ⟨Status.complete, 0, some 5, none, none⟩

/-- Witness for C9: completing the fresh pending order at time 5 persists a
row whose two outcome timestamps are not both present. -/
theorem c9_witness :
    ¬ (orderDoneC.completed_at.isSome = true ∧ orderDoneC.canceled_at.isSome = true) :=
  c9_completed_canceled_exclusive 5 orderP
    { orderP with status := Status.complete, completed_at := some 5 } orderDoneC
    (by decide)

/-- C6: for a reachable PENDING order, `PENDING → READY` sets the status to
READY exactly when the current time has reached
`promised_ready_time = created_at + default_ready_minutes` of the schedule
passed at the moment of the transition; before the deadline the request is
refused without error and the order is returned unchanged. -/
theorem c6_ready_deadline :
    ∀ (now : ℤ) (rs : RestaurantSetting) (o : Order),
      o.status = Status.pending → o.completed_at = none → o.canceled_at = none →
      ((Order.make_order_ready now rs o = .ok { o with status := Status.ready } ↔
          o.created_at + (rs.default_ready_minutes : ℤ) ≤ now)
        ∧ (now < o.created_at + (rs.default_ready_minutes : ℤ) →
            Order.make_order_ready now rs o = .ok o)) := by
  intro now rs o hs hc hx
  obtain ⟨st, ca, co, cx, cr⟩ := o
  obtain rfl : st = Status.pending := hs
  obtain rfl : co = (none : Option ℤ) := hc
  obtain rfl : cx = (none : Option ℤ) := hx
  have hready : ca + (rs.default_ready_minutes : ℤ) ≤ now →
      Order.make_order_ready now rs ⟨Status.pending, ca, none, none, cr⟩ =
        .ok ⟨Status.ready, ca, none, none, cr⟩ := by
    intro hdue
    simp [Order.make_order_ready, Order.promised_ready_time, hdue, Order.save,
      Order.apply_save_diff, Order.full_clean]
  have hnot : now < ca + (rs.default_ready_minutes : ℤ) →
      Order.make_order_ready now rs ⟨Status.pending, ca, none, none, cr⟩ =
        .ok ⟨Status.pending, ca, none, none, cr⟩ := by
    intro hlt
    simp [Order.make_order_ready, Order.promised_ready_time, not_le.mpr hlt]
  refine ⟨⟨?_, hready⟩, hnot⟩
  intro h
  by_contra hlt
  push_neg at hlt
  rw [hnot hlt] at h
  injection h with h2
  injection h2 with hst
  exact Status.noConfusion hst

/-- Witness for C6 (Scenario C): the fresh pending order with default ready
20 minutes is refused immediately and promoted when requested at
minute 20. -/
theorem c6_witness :
    Order.make_order_ready 0 rsA orderP = .ok orderP ∧
    Order.make_order_ready 20 rsA orderP = .ok { orderP with status := Status.ready } :=
  ⟨(c6_ready_deadline 0 rsA orderP rfl rfl rfl).2 (by decide),
   (c6_ready_deadline 20 rsA orderP rfl rfl rfl).1.mpr (by decide)⟩

lemma apply_save_diff_cancel (now : ℤ) (st : Status) (ca : ℤ) (co cx : Option ℤ)
    (cr : Option String) (reason : String) :
    Order.apply_save_diff now ⟨st, ca, co, cx, cr⟩
        ⟨Status.canceled, ca, co, some now, some reason⟩ =
      ⟨Status.canceled, ca, co, some now, some reason⟩ := by
  cases st <;> rfl

lemma cancel_order_ok (now : ℤ) (reason : String) (o o2 : Order)
    (h : Order.cancel_order now reason o = .ok o2) :
    o2.status = Status.canceled ∧ o2.canceled_at = some now ∧
      o2.cancel_reason = some reason := by
  obtain ⟨st, ca, co, cx, cr⟩ := o
  unfold Order.cancel_order at h
  replace h : Order.save now ⟨st, ca, co, cx, cr⟩
      ⟨Status.canceled, ca, co, some now, some reason⟩ = .ok o2 := h
  unfold Order.save at h
  rw [apply_save_diff_cancel] at h
  unfold Order.full_clean at h
  split_ifs at h
  first
    | exact h.elim
    | exact Except.noConfusion h
    | (injection h with h2; subst h2; exact ⟨rfl, rfl, rfl⟩)

/-- C8 (amended): for PENDING or READY orders, the customer cancel path
requires a reason that is non-blank after stripping and, on success, sets
`canceled_at` to the current time, stores the stripped reason and the
CANCELED status; a blank customer reason is rejected, and orders already
COMPLETE or CANCELED are refused with `InvalidTransition`.  The staff
status-update path substitutes the default reason `"Canceled by staff"` only
when no reason is supplied, and stores a supplied reason verbatim (including
the empty string). -/
theorem c8_amended_cancellation :
    ∀ (now : ℤ) (rs : RestaurantSetting) (o : Order) (reason : String),
      (str_strip reason = "" → customer_cancel now o reason = .error OrderError.emptyReason)
      ∧ (∀ o2, customer_cancel now o reason = .ok o2 →
          o2.status = Status.canceled ∧ o2.canceled_at = some now ∧
            o2.cancel_reason = some (str_strip reason))
      ∧ ((o.status = Status.complete ∨ o.status = Status.canceled) →
          (customer_cancel now o reason).isOk = false)
      ∧ (str_strip reason ≠ "" →
          (o.status = Status.complete ∨ o.status = Status.canceled) →
          customer_cancel now o reason =
            .error (.invalidTransition o.status Status.canceled))
      ∧ (∀ o2, update_status now rs o Status.canceled (some reason) = .ok o2 →
          o2.cancel_reason = some reason)
      ∧ (∀ o2, update_status now rs o Status.canceled none = .ok o2 →
          o2.cancel_reason = some "Canceled by staff") := by
  intro now rs o reason
  refine ⟨?_, ?_, ?_, ?_, ?_, ?_⟩
  · intro ht
    simp [customer_cancel, ht]
  · intro o2 h
    unfold customer_cancel at h
    split_ifs at h with h1 h2
    exact cancel_order_ok now (str_strip reason) o o2 h
  · intro hst
    unfold customer_cancel
    split_ifs with h1 h2
    · rfl
    · exfalso
      rcases hst with hst | hst <;> rcases h2 with h2 | h2 <;>
        rw [hst] at h2 <;> exact Status.noConfusion h2
    · rfl
  · intro hne hst
    unfold customer_cancel
    rw [if_neg hne]
    have hnp : ¬ (o.status = Status.pending ∨ o.status = Status.ready) := by
      rcases hst with h | h <;> rw [h] <;> rintro (hx | hx) <;>
        exact Status.noConfusion hx
    rw [if_pos hnp]
  · intro o2 h
    unfold update_status validate_status at h
    cases ho : o.status <;> rw [ho] at h <;> simp [valid_transactions] at h
    · exact (cancel_order_ok now reason o o2 h).2.2
    · exact (cancel_order_ok now reason o o2 h).2.2
  · intro o2 h
    unfold update_status validate_status at h
    cases ho : o.status <;> rw [ho] at h <;> simp [valid_transactions] at h
    · exact (cancel_order_ok now "Canceled by staff" o o2 h).2.2
    · exact (cancel_order_ok now "Canceled by staff" o o2 h).2.2

/-- C8 counterexample: a staff status update that supplies an explicitly
empty cancellation reason succeeds on a pending order (the reason default
only applies when the key is absent), storing the empty reason — so a
cancellation request with an empty reason is not always rejected. -/
theorem c8_empty_reason_counterexample :
    update_status 5 rsA orderP Status.canceled (some "") =
      .ok ⟨Status.canceled, 0, none, some 5, some ""⟩ := by
  decide

/-- A canceled order row used to witness C8. -/
def orderCx : Order :=
  ⟨Status.canceled, 0, none, some 7, some "ok"⟩

/-- Witness for C8 (amended): cancelling the fresh pending order with reason
"ok" at time 7 stores CANCELED, the timestamp and the stripped reason, and a
COMPLETE order is refused. -/
theorem c8_witness :
    (orderCx.status = Status.canceled ∧ orderCx.canceled_at = some 7 ∧
      orderCx.cancel_reason = some (str_strip "ok"))
    ∧ (customer_cancel 7 orderDoneC "x").isOk = false :=
  ⟨(c8_amended_cancellation 7 rsA orderP "ok").2.1 orderCx (by decide),
   (c8_amended_cancellation 7 rsA orderDoneC "x").2.2.1 (Or.inl rfl)⟩

/-- Witness for C3: creation at 21:15 (after last call 21:10) with a valid
line item is rejected and persists nothing. -/
theorem c3_witness :
    (create_order rsA 1275 [itemA] 0).order = none ∧
    (create_order rsA 1275 [itemA] 0).rows = [] ∧
    (create_order rsA 1275 [itemA] 0).err.isSome = true :=
  c3_admission_gate.2.2 rsA 1275 [itemA] 0
    (.admissionDenied "Only accept orders created within available business hours")
    (by decide)

lemma run_item_validation_ok (r : ItemReq) :
    run_item_validation r = .ok () ↔
      (r.is_available = true ∧ 0 < r.quantity ∧ 0 < r.unit_price ∧
        r.unit_price = r.item_price) := by
  constructor
  · intro h
    unfold run_item_validation validate_item validate_quantity
      validate_unit_price validate_price_match at h
    split_ifs at h with h1 h2 h3 h4
    exact ⟨by simpa using h1, by omega, not_le.mp h3, not_not.mp h4⟩
  · rintro ⟨ha, hq, hp, he⟩
    unfold run_item_validation validate_item validate_quantity
      validate_unit_price validate_price_match
    simp [ha, he, not_le.mpr hq, not_le.mpr hp, not_le.mpr (he ▸ hp)]

lemma validate_items_ok_mem :
    ∀ l : List ItemReq, validate_items l = .ok () →
      ∀ r ∈ l, run_item_validation r = .ok () := by
  intro l
  induction l with
  | nil =>
    intro _ r hr
    cases hr
  | cons a rest ih =>
    intro h r hr
    unfold validate_items at h
    cases hv : run_item_validation a with
    | error e =>
      rw [hv] at h
      exact Except.noConfusion h
    | ok u =>
      cases u
      rw [hv] at h
      cases hr with
      | head => exact hv
      | tail _ hr2 => exact ih h r hr2

lemma validate_items_error_of_mismatch (r : ItemReq)
    (hne : r.unit_price ≠ r.item_price) :
    ∀ l : List ItemReq, r ∈ l → ∃ e, validate_items l = .error e := by
  intro l
  induction l with
  | nil =>
    intro hm
    cases hm
  | cons a rest ih =>
    intro hm
    cases hv : run_item_validation a with
    | error e => exact ⟨e, by simp [validate_items, hv]⟩
    | ok u =>
      cases u
      cases hm with
      | head => exact absurd ((run_item_validation_ok r).mp hv).2.2.2 hne
      | tail _ hm2 =>
        obtain ⟨e, he⟩ := ih hm2
        exact ⟨e, by simp [validate_items, hv, he]⟩

lemma validate_items_mismatch_kind (r : ItemReq)
    (hne : r.unit_price ≠ r.item_price) :
    ∀ l : List ItemReq,
      (∀ x ∈ l, x.is_available = true ∧ 0 < x.quantity ∧ 0 < x.unit_price) →
      r ∈ l → ∃ cp sp, validate_items l = .error (.priceMismatch cp sp) := by
  intro l
  induction l with
  | nil =>
    intro _ hm
    cases hm
  | cons a rest ih =>
    intro hvalid hm
    obtain ⟨ha, hq, hp⟩ := hvalid a (List.mem_cons_self a rest)
    by_cases hmatch : a.unit_price = a.item_price
    · have hok : run_item_validation a = .ok () :=
        (run_item_validation_ok a).mpr ⟨ha, hq, hp, hmatch⟩
      cases hm with
      | head => exact absurd hmatch hne
      | tail _ hm2 =>
        obtain ⟨cp, sp, he⟩ :=
          ih (fun x hx => hvalid x (List.mem_cons_of_mem a hx)) hm2
        exact ⟨cp, sp, by simp [validate_items, hok, he]⟩
    · have herr : run_item_validation a =
          .error (.priceMismatch a.item_price a.unit_price) := by
        unfold run_item_validation validate_item validate_quantity
          validate_unit_price validate_price_match
        simp [ha, hmatch, not_le.mpr hq, not_le.mpr hp]
      exact ⟨a.item_price, a.unit_price, by simp [validate_items, herr]⟩

/-- C7: a createOrder request containing a line item whose supplied unit
price differs from the catalog item's current price is rejected and persists
no order shell and no line-item rows; when the items pass the other field
validations the rejection is a `PriceMismatch`. -/
theorem c7_price_mismatch :
    ∀ (rs : RestaurantSetting) (t : ℕ) (items : List ItemReq) (g : ℚ)
      (r : ItemReq),
      r ∈ items → r.unit_price ≠ r.item_price →
      (((create_order rs t items g).order = none ∧
        (create_order rs t items g).rows = [] ∧
        (create_order rs t items g).err.isSome = true)
       ∧ ((∀ x ∈ items, x.is_available = true ∧ 0 < x.quantity ∧ 0 < x.unit_price) →
           ∃ cp sp, create_order rs t items g =
             ⟨none, [], some (.priceMismatch cp sp)⟩)) := by
  intro rs t items g r hm hne
  have hni : items ≠ [] := by
    rintro rfl
    cases hm
  constructor
  · obtain ⟨e, he⟩ := validate_items_error_of_mismatch r hne items hm
    refine ⟨?_, ?_, ?_⟩ <;> simp [create_order, hni, he]
  · intro hvalid
    obtain ⟨cp, sp, hpm⟩ := validate_items_mismatch_kind r hne items hvalid hm
    exact ⟨cp, sp, by simp [create_order, hni, hpm]⟩

/-- Witness for C7 (Scenario E): an available item with catalog price 11.00
but supplied price 10.00 makes creation fail with `PriceMismatch`,
persisting nothing. -/
theorem c7_witness :
    ((create_order rsA 1265 [itemM] 0).order = none ∧
     (create_order rsA 1265 [itemM] 0).rows = [] ∧
     (create_order rsA 1265 [itemM] 0).err.isSome = true)
    ∧ (∃ cp sp, create_order rsA 1265 [itemM] 0 =
        ⟨none, [], some (.priceMismatch cp sp)⟩) :=
  ⟨(c7_price_mismatch rsA 1265 [itemM] 0 itemM (by decide) (by decide)).1,
   (c7_price_mismatch rsA 1265 [itemM] 0 itemM (by decide) (by decide)).2
     (by decide)⟩

lemma insert_items_rows (l : List ItemReq) :
    ∀ acc : List OrderItemRow,
      (insert_items acc l).2 = none →
      (insert_items acc l).1 = acc ++ l.map order_item_row := by
  induction l with
  | nil =>
    intro acc _
    simp [insert_items]
  | cons a rest ih =>
    intro acc h
    unfold insert_items at h ⊢
    split_ifs at h ⊢ with hd
    rw [ih _ h]
    simp

/-- C10 (implicit): `validate_unit_price` rejects every non-positive
supplied price, so a successful creation only ever persists line items with
strictly positive unit prices, and every requested item's catalog price is
itself positive — an order can never be created for a catalog item whose
current price is 0.00. -/
theorem c10_no_zero_priced_items :
    ∀ (rs : RestaurantSetting) (t : ℕ) (items : List ItemReq) (g : ℚ),
      (create_order rs t items g).err = none →
      (∀ row ∈ (create_order rs t items g).rows, 0 < row.unit_price)
      ∧ (∀ x ∈ items, 0 < x.unit_price ∧ 0 < x.item_price) := by
  intro rs t items g h
  by_cases hni : items = []
  · subst hni
    simp [create_order] at h
  · cases hv : validate_items items with
    | error e => simp [create_order, hni, hv] at h
    | ok u =>
      cases u
      have hfields : ∀ x ∈ items, x.is_available = true ∧ 0 < x.quantity ∧
          0 < x.unit_price ∧ x.unit_price = x.item_price :=
        fun x hx => (run_item_validation_ok x).mp (validate_items_ok_mem items hv x hx)
      have hitems : ∀ x ∈ items, 0 < x.unit_price ∧ 0 < x.item_price := by
        intro x hx
        obtain ⟨-, -, hp, hpe⟩ := hfields x hx
        exact ⟨hp, hpe ▸ hp⟩
      refine ⟨?_, hitems⟩
      by_cases hg : g < 0
      · simp [create_order, hni, hv, hg] at h
      · cases hcl : Order.clean rs t with
        | error e => simp [create_order, hni, hv, hg, hcl] at h
        | ok u2 =>
          cases u2
          cases hins : insert_items [] items with
          | mk rows oerr =>
            cases oerr with
            | some e => simp [create_order, hni, hv, hg, hcl, hins] at h
            | none =>
              have hrows : rows = items.map order_item_row := by
                have h2 := insert_items_rows items [] (by rw [hins])
                rw [hins] at h2
                simpa using h2
              intro row hrow
              simp only [create_order, if_neg hni, hv, if_neg hg, hcl, hins] at hrow
              rw [hrows] at hrow
              rcases List.mem_map.mp hrow with ⟨x, hx, rfl⟩
              exact (hitems x hx).1

/-- Witness for C10: a successful creation with two distinct items at
prices 10.00 and 6.00 only persists positive-priced rows, and both catalog
prices are positive. -/
theorem c10_witness :
    (∀ row ∈ (create_order rsA 1265 [itemA, itemB] 3).rows, 0 < row.unit_price)
    ∧ (∀ x ∈ [itemA, itemB], 0 < x.unit_price ∧ 0 < x.item_price) :=
  c10_no_zero_priced_items rsA 1265 [itemA, itemB] 3 (by decide)

/-- C4: order creation is not atomic — a request whose two line items
reference the same catalog item fails on the second insert
(`unique_together` violation) after the order shell and the first row were
already committed, leaving a persisted order shell with zero totals and one
line-item row despite the failed request. -/
theorem c4_non_atomic_creation :
    (create_order rsA 1265 [itemA, itemA] 0).err = some (OrderError.duplicateItem 1)
    ∧ (create_order rsA 1265 [itemA, itemA] 0).order =
        some ⟨Status.pending, 0, 7/100, 0, 0, 0⟩
    ∧ (create_order rsA 1265 [itemA, itemA] 0).rows = [order_item_row itemA] :=
  ⟨rfl, rfl, rfl⟩
